import Mathlib

/-!
# The `Home` / `User` screen flow of `App.js`

A shallow embedding of the two screen components of `src/App.js`:

* `UserScreen` (lines 11-72): the render guard, the six field rows with their
  fallback, and the two step buttons;
* `HomeScreen` (lines 77-120): the component state, the promise chain of the mount
  effect, and the rendered loading / error view.

Rendering is a pure function from the props (and component state) to a view value;
handlers are recorded in the view as the navigation call they make.  Console output
is kept as data next to the view.
-/

namespace App

/-! ## JavaScript values -/

/-- JavaScript values as they occur in a decoded JSON body or a route parameter.
`num` holds the integral numbers, `nan` the not-a-number value. -/
inductive JSValue where
  | undefined
  | null
  | bool (b : Bool)
  | num (n : Int)
  | nan
  | str (s : String)
  | arr (items : List JSValue)
  | obj (fields : List (String × JSValue))

namespace JSValue

/-- JavaScript truthiness (`ToBoolean`): `undefined`, `null`, `false`, `0`, `NaN` and
the empty string are falsy, every other value (all arrays and objects) is truthy. -/
def truthy : JSValue → Bool
  | undefined => false
  | null => false
  | bool b => b
  | num n => n != 0
  | nan => false
  | str s => s != ""
  | arr _ => true
  | obj _ => true

/-- Logical or, `a || b`: the left operand when it is truthy, else the right one. -/
def or (a b : JSValue) : JSValue :=
  if a.truthy then a else b

/-- Own property of an object by key. -/
def lookup (key : String) : List (String × JSValue) → Option JSValue
  | [] => none
  | (k, v) :: rest => if k = key then some v else lookup key rest

/-- Property read `v.key` on a value that is neither `undefined` nor `null`, for a key
that is not a built-in property: the own property of an object, `undefined` when the
object has no such property or the value is a primitive or an array. -/
def getProp (v : JSValue) (key : String) : JSValue :=
  match v with
  | obj fields => (lookup key fields).getD undefined
  | _ => undefined

/-- A user record: a JSON object (an attribute bag, every field optional). -/
def isRecord : JSValue → Bool
  | obj _ => true
  | _ => false

end JSValue

open JSValue

/-- Array element read `users[i]` for an integer `i`: the element when
`0 ≤ i < users.length`, `undefined` otherwise. -/
def index (users : List JSValue) (i : Int) : JSValue :=
  if 0 ≤ i then (users.get? i.toNat).getD undefined else undefined

/-! ## Navigation calls and views -/

/-- The parameters of the `User` route, `{ currentUserIndex, users }`.  `users` is
`none` when the parameter is missing (`undefined` or `null`). -/
structure RouteParams where
  currentUserIndex : Int
  users : Option (List JSValue)

/-- The two calls of `navigation.navigate` that the source makes:
`navigate("Home")` and `navigate("User", { currentUserIndex, users })`. -/
inductive Navigate where
  | home
  | user (params : RouteParams)

/-- A `TouchableOpacity` with a text label.  A disabled one does not fire `onPress`. -/
structure Button where
  label : String
  disabled : Bool
  onPress : Navigate

/-- Pressing a button: the call of its handler, nothing when it is disabled. -/
def Button.press (b : Button) : Option Navigate :=
  if b.disabled then none else some b.onPress

/-- One console call. -/
inductive LogEntry where
  | log (msg : String)
  | warn (msg : String)
  | error (msg : String) (detail : String)

/-- The record view of `UserScreen` (lines 27-71): the console line, the avatar
source, the six text rows and the two buttons. -/
structure Details where
  console : LogEntry
  avatar : JSValue
  id : JSValue
  first_name : JSValue
  last_name : JSValue
  username : JSValue
  email : JSValue
  password : JSValue
  previous : Button
  next : Button

/-- What `UserScreen` returns. -/
inductive UserView where
  | noData (console : LogEntry) (message : String) (goBack : Button)
  | viewing (d : Details)

/-- The view returned under the guard (lines 16-24). -/
def noDataView : UserView :=
  .noData (.warn "User data is missing, showing error message.")
    "Oops! No user data available." ⟨"Go Back", false, .home⟩

/-- The component `UserScreen` (lines 11-72), as the view it returns.  The guard of
line 15 is `!users || users.length === 0 || !users[currentUserIndex]`. -/
def UserScreen (params : RouteParams) : UserView :=
  match params.users with
  | none => noDataView
  | some users =>
    let currentUserIndex := params.currentUserIndex
    if decide ((users.length : Int) = 0) || !(index users currentUserIndex).truthy then
      noDataView
    else
      .viewing {
        console := .log ("Displaying user " ++ toString (currentUserIndex + 1) ++ " of "
          ++ toString users.length)
        avatar := (index users currentUserIndex).getProp "avatar"
        id := ((index users currentUserIndex).getProp "id").or (str "N/A")
        first_name := ((index users currentUserIndex).getProp "first_name").or (str "N/A")
        last_name := ((index users currentUserIndex).getProp "last_name").or (str "N/A")
        username := ((index users currentUserIndex).getProp "username").or (str "N/A")
        email := ((index users currentUserIndex).getProp "email").or (str "N/A")
        password := ((index users currentUserIndex).getProp "password").or (str "N/A")
        previous :=
          { label := "Previous"
            disabled := decide (currentUserIndex = 0)
            onPress := .user ⟨currentUserIndex - 1, some users⟩ }
        next :=
          { label := "Next"
            disabled := decide (currentUserIndex = (users.length : Int) - 1)
            onPress := .user ⟨currentUserIndex + 1, some users⟩ } }

/-- The record view that `UserScreen` builds for the entry `user` at position
`i` of `users`. -/
def detailsOf (users : List JSValue) (i : Int) (user : JSValue) : Details :=
  { console := .log ("Displaying user " ++ toString (i + 1) ++ " of " ++ toString users.length)
    avatar := user.getProp "avatar"
    id := (user.getProp "id").or (str "N/A")
    first_name := (user.getProp "first_name").or (str "N/A")
    last_name := (user.getProp "last_name").or (str "N/A")
    username := (user.getProp "username").or (str "N/A")
    email := (user.getProp "email").or (str "N/A")
    password := (user.getProp "password").or (str "N/A")
    previous := ⟨"Previous", decide (i = 0), .user ⟨i - 1, some users⟩⟩
    next := ⟨"Next", decide (i = (users.length : Int) - 1), .user ⟨i + 1, some users⟩⟩ }

/-- The parameters with which the `User` route is rendered again after a press on
one of the two step buttons; `none` when the button is disabled or absent. -/
def stepWith (pick : Details → Button) (params : RouteParams) : Option RouteParams :=
  match UserScreen params with
  | .viewing d =>
    match (pick d).press with
    | some (.user next) => some next
    | _ => none
  | .noData _ _ _ => none

/-- A press on "Next". -/
def stepForward (params : RouteParams) : Option RouteParams :=
  stepWith Details.next params

/-- A press on "Previous". -/
def stepBackward (params : RouteParams) : Option RouteParams :=
  stepWith Details.previous params

/-! ## `HomeScreen` -/

/-- The three `useState` cells of `HomeScreen` (lines 78-80). -/
structure HomeState where
  users : List JSValue
  loading : Bool
  error : Option String

/-- The initial values of the state cells: `[]`, `true`, `null`. -/
def HomeState.initial : HomeState :=
  { users := [], loading := true, error := none }

/-- How the request of line 84 settles: the promise of `fetch` rejects, or it resolves
to a response with its `ok` flag and the result of decoding its body with `json()`
(a value, or a rejection). -/
inductive FetchResult where
  | rejected (reason : String)
  | response (ok : Bool) (json : Except String JSValue)

/-- What the settled promise chain has done: the state cells, the navigation call
and the console lines. -/
structure Outcome where
  state : HomeState
  navigation : Option Navigate
  console : List LogEntry

/-- The first `then` callback (lines 85-90). -/
def onResponse (ok : Bool) (json : Except String JSValue) : Except String JSValue :=
  if !ok then
    throw "Failed to fetch user data."
  else
    json

/-- The second `then` callback (lines 91-99), run on the state `st` with the
navigation prop `navigate`: what the callback has done, and the error it throws, if
any.  The call of line 98 comes last and may itself throw (the navigator renders the
`User` screen during the call, and an error of that render escapes it); the state
cells set on lines 96-97 then keep their values. -/
def onData (navigate : Navigate → Except String Unit) (st : HomeState) (data : JSValue) :
    Outcome × Option String :=
  match data with
  | arr items =>
    if decide ((items.length : Int) = 0) then
      ({ state := st, navigation := none, console := [] },
        some "Invalid user data received.")
    else
      let done : Outcome :=
        { state := { st with users := items, loading := false }
          navigation := some (.user ⟨0, some items⟩)
          console := [.log "User data fetched successfully!"] }
      match navigate (.user ⟨0, some items⟩) with
      | .ok _ => (done, none)
      | .error e => (done, some e)
  | _ =>
    ({ state := st, navigation := none, console := [] },
      some "Invalid user data received.")

/-- The `catch` callback (lines 100-104), run on the state `st`. -/
def onError (st : HomeState) (error : String) : Outcome :=
  { state :=
      { st with
        error := some "Failed to load user data. Please check your internet connection."
        loading := false }
    navigation := none
    console := [.error "Error fetching users:" error] }

/-- The promise chain of the mount effect (lines 84-104) on a settled request.  The
`catch` covers the request and both `then` callbacks, so also an error thrown by the
call of line 98. -/
def fetchUsers (navigate : Navigate → Except String Unit) (st : HomeState)
    (r : FetchResult) : Outcome :=
  let decoded : Except String JSValue :=
    match r with
    | .rejected reason => throw reason
    | .response ok json => onResponse ok json
  match decoded with
  | .error e => onError st e
  | .ok data =>
    match onData navigate st data with
    | (done, none) => done
    | (done, some e) =>
      { state := (onError done.state e).state
        navigation := done.navigation
        console := done.console ++ (onError done.state e).console }

/-- What `HomeScreen` returns (lines 107-119): the activity indicator and, when
`error` is set, the message with the "Retry" button. -/
structure HomeView where
  activityIndicator : Bool
  errorPanel : Option (String × Button)

/-- The component `HomeScreen`, as the view it returns for its state. -/
def HomeScreen (st : HomeState) : HomeView :=
  { activityIndicator := st.loading
    errorPanel :=
      match st.error with
      | some error => if error != "" then some (error, ⟨"Retry", false, .home⟩) else none
      | none => none }

/-! ## The flow from the `Home` route -/

/-- The address of the request of line 84. -/
def endpoint : String :=
  "https://random-data-api.com/api/users/random_user?size=80"

/-- The navigation state while `Home`, the initial route, is mounted: the state of
the mounted `HomeScreen`, the parameters of the `User` route above it (if it has been
opened), and the requests issued so far. -/
structure Session where
  home : HomeState
  user : Option RouteParams
  requests : List String

/-- Mounting `HomeScreen`: the state cells take their initial values and the effect
(dependency list `[]`, so it runs on mount only) issues the request. -/
def Session.mount : Session :=
  { home := HomeState.initial, user := none, requests := [endpoint] }

/-- A `navigation.navigate` call made by the mounted `Home` route.  The navigator is
library code (`@react-navigation/stack`); two rules of it are used.  A call that
names `User` opens the `User` route with the given parameters.  A call that names
`Home` while `Home` is the focused route leaves the route as it is: the screen stays
mounted, so its state cells are kept and its mount effect does not run again.  (A
call that names `Home` while `User` is focused goes back to the mounted `Home`
route; no such call is made by `HomeScreen`.) -/
def Session.navigate (s : Session) : Navigate → Session
  | .user params => { s with user := some params }
  | .home =>
    match s.user with
    | none => s
    | some _ => { s with user := none }

/-- The request of the mounted `HomeScreen` settles.  The session carries out the
navigation call of the handler with `Session.navigate`, and the call returns: the
session records the routes, it does not render them. -/
def Session.settle (s : Session) (r : FetchResult) : Session :=
  let done := fetchUsers (fun _ => .ok ()) s.home r
  match done.navigation with
  | some call => { s with home := done.state }.navigate call
  | none => { s with home := done.state }

/-- A press on the button of the error panel, when `HomeScreen` shows one. -/
def Session.pressRetry (s : Session) : Session :=
  match (HomeScreen s.home).errorPanel with
  | some (_, retry) =>
    match retry.press with
    | some call => s.navigate call
    | none => s
  | none => s

/-- The states of the `User` route that a session started by the fetch result `r`
can reach with presses on "Previous" and "Next". -/
inductive Reachable (r : FetchResult) : RouteParams → Prop where
  | start (p : RouteParams) : (Session.mount.settle r).user = some p → Reachable r p
  | forward (p q : RouteParams) : Reachable r p → stepForward p = some q → Reachable r q
  | backward (p q : RouteParams) : Reachable r p → stepBackward p = some q → Reachable r q

/-- A list of eighty records, each with an `id`. -/
def batch80 : List JSValue :=
  List.replicate 80 (obj [("id", num 1)])

/-! ## Auxiliary facts -/

theorem JSValue.truthy_of_isRecord (v : JSValue) (h : v.isRecord = true) :
    v.truthy = true := by
  cases v <;> simp_all [JSValue.isRecord, JSValue.truthy]

theorem JSValue.truthy_ne_undefined (v : JSValue) (h : v.truthy = true) :
    v ≠ undefined ∧ v ≠ null := by
  cases v <;> simp_all [JSValue.truthy]

theorem index_out_of_range (users : List JSValue) (i : Int)
    (h : i < 0 ∨ (users.length : Int) ≤ i) : index users i = undefined := by
  unfold index
  split
  · next h0 =>
    have hlen : users.length ≤ i.toNat := by omega
    rw [List.get?_eq_none.mpr hlen]
    rfl
  · rfl

theorem index_in_range (users : List JSValue) (i : Int)
    (h0 : 0 ≤ i) (h1 : i < (users.length : Int)) :
    ∃ u, u ∈ users ∧ index users i = u := by
  have hlt : i.toNat < users.length := by omega
  refine ⟨users.get ⟨i.toNat, hlt⟩, List.get_mem _ _ _, ?_⟩
  unfold index
  rw [if_pos h0, List.get?_eq_get hlt]
  rfl

theorem index_truthy_range (users : List JSValue) (i : Int)
    (h : (index users i).truthy = true) : 0 ≤ i ∧ i < (users.length : Int) := by
  by_contra hc
  have hout : i < 0 ∨ (users.length : Int) ≤ i := by omega
  rw [index_out_of_range users i hout] at h
  simp [JSValue.truthy] at h

theorem index_record (users : List JSValue) (i : Int)
    (hrec : ∀ u ∈ users, u.isRecord = true)
    (h0 : 0 ≤ i) (h1 : i < (users.length : Int)) : (index users i).truthy = true := by
  obtain ⟨u, hu, hidx⟩ := index_in_range users i h0 h1
  rw [hidx]
  exact JSValue.truthy_of_isRecord u (hrec u hu)

theorem UserScreen_of_truthy (users : List JSValue) (i : Int)
    (h : (index users i).truthy = true) :
    UserScreen ⟨i, some users⟩ = .viewing (detailsOf users i (index users i)) := by
  have hr := index_truthy_range users i h
  have hlen : ¬ ((users.length : Int) = 0) := by omega
  simp [UserScreen, detailsOf, h, hlen]

theorem UserScreen_of_falsy (users : List JSValue) (i : Int)
    (h : (index users i).truthy = false) :
    UserScreen ⟨i, some users⟩ = noDataView := by
  simp [UserScreen, h]

theorem noDataView_ne_viewing (d : Details) : noDataView ≠ UserView.viewing d := by
  intro h
  cases h

theorem UserScreen_viewing_inv (params : RouteParams) (d : Details)
    (h : UserScreen params = .viewing d) :
    ∃ users, params.users = some users ∧
      (index users params.currentUserIndex).truthy = true ∧
      d = detailsOf users params.currentUserIndex (index users params.currentUserIndex) := by
  obtain ⟨i, users⟩ := params
  cases users with
  | none => exact absurd h (noDataView_ne_viewing d)
  | some users =>
    cases ht : (index users i).truthy with
    | false =>
      rw [UserScreen_of_falsy users i ht] at h
      exact absurd h (noDataView_ne_viewing d)
    | true =>
      rw [UserScreen_of_truthy users i ht] at h
      injection h with h
      exact ⟨users, rfl, ht, h.symm⟩

theorem stepForward_eq (users : List JSValue) (i : Int)
    (h : (index users i).truthy = true) :
    stepForward ⟨i, some users⟩ =
      if i = (users.length : Int) - 1 then none else some ⟨i + 1, some users⟩ := by
  unfold stepForward stepWith
  rw [UserScreen_of_truthy users i h]
  by_cases hi : i = (users.length : Int) - 1 <;> simp [detailsOf, Button.press, hi]

theorem stepBackward_eq (users : List JSValue) (i : Int)
    (h : (index users i).truthy = true) :
    stepBackward ⟨i, some users⟩ = if i = 0 then none else some ⟨i - 1, some users⟩ := by
  unfold stepBackward stepWith
  rw [UserScreen_of_truthy users i h]
  by_cases hi : i = 0 <;> simp [detailsOf, Button.press, hi]

/-! ## The step buttons -/

/-- C1: whenever `UserScreen` renders the record view for a list and an index, "Next"
is disabled exactly at the last index and "Previous" exactly at index 0; at every
other index both buttons are enabled.  (The index is then within the list.) -/
theorem step_buttons_disabled_iff (users : List JSValue) (i : Int) (d : Details)
    (h : UserScreen ⟨i, some users⟩ = .viewing d) :
    (0 < users.length ∧ 0 ≤ i ∧ i < (users.length : Int)) ∧
    (d.next.disabled = true ↔ i = (users.length : Int) - 1) ∧
    (d.previous.disabled = true ↔ i = 0) ∧
    (i ≠ 0 → i ≠ (users.length : Int) - 1 →
      d.previous.disabled = false ∧ d.next.disabled = false) := by
  obtain ⟨users', hu, ht, hd⟩ := UserScreen_viewing_inv _ d h
  simp only [Option.some.injEq] at hu
  subst hu
  have hr := index_truthy_range _ _ ht
  subst hd
  refine ⟨⟨by omega, hr.1, hr.2⟩, ?_, ?_, ?_⟩
  · simp [detailsOf]
  · simp [detailsOf]
  · intro h0 h1
    simp [detailsOf, h0, h1]

/-- C1, at the last of eighty records: "Next" disabled, "Previous" enabled. -/
theorem step_buttons_disabled_iff_witness :
    ∃ d, UserScreen ⟨79, some batch80⟩ = .viewing d ∧
      d.next.disabled = true ∧ d.previous.disabled = false :=
  ⟨detailsOf batch80 79 (obj [("id", num 1)]), rfl,
    (step_buttons_disabled_iff batch80 79 _ rfl).2.1.mpr rfl, rfl⟩

/-- C3: in a list of records, for `0 ≤ i < N - 1`, a press on "Next" at `i` navigates
to `User` with `{ currentUserIndex: i + 1, users }` and a press on "Previous" at
`i + 1` navigates with `{ currentUserIndex: i, users }`, the list being the one
received; so a step forward followed by a step backward, and a step backward followed
by a step forward, give back the parameters they started from. -/
theorem step_round_trip (users : List JSValue) (i : Int)
    (hrec : ∀ u ∈ users, u.isRecord = true)
    (hi : 0 ≤ i ∧ i < (users.length : Int) - 1) :
    (∃ d, UserScreen ⟨i, some users⟩ = .viewing d ∧
      d.next.press = some (.user ⟨i + 1, some users⟩)) ∧
    (∃ d, UserScreen ⟨i + 1, some users⟩ = .viewing d ∧
      d.previous.press = some (.user ⟨i, some users⟩)) ∧
    stepForward ⟨i, some users⟩ = some ⟨i + 1, some users⟩ ∧
    stepBackward ⟨i + 1, some users⟩ = some ⟨i, some users⟩ ∧
    (stepForward ⟨i, some users⟩).bind stepBackward = some ⟨i, some users⟩ ∧
    (stepBackward ⟨i + 1, some users⟩).bind stepForward = some ⟨i + 1, some users⟩ := by
  have ht0 : (index users i).truthy = true := index_record users i hrec hi.1 (by omega)
  have ht1 : (index users (i + 1)).truthy = true :=
    index_record users (i + 1) hrec (by omega) (by omega)
  have hne0 : ¬ (i = (users.length : Int) - 1) := by omega
  have hne1 : ¬ (i + 1 = 0) := by omega
  have hf : stepForward ⟨i, some users⟩ = some ⟨i + 1, some users⟩ := by
    rw [stepForward_eq users i ht0, if_neg hne0]
  have hb : stepBackward ⟨i + 1, some users⟩ = some ⟨i, some users⟩ := by
    rw [stepBackward_eq users (i + 1) ht1, if_neg hne1]
    simp
  refine ⟨⟨_, UserScreen_of_truthy users i ht0, ?_⟩,
    ⟨_, UserScreen_of_truthy users (i + 1) ht1, ?_⟩, hf, hb, ?_, ?_⟩
  · simp [detailsOf, Button.press, hne0]
  · simp [detailsOf, Button.press, hne1]
  · rw [hf]
    exact hb
  · rw [hb]
    exact hf

/-- C3, on a list of three records at `i = 1`. -/
theorem step_round_trip_witness :
    stepForward ⟨1, some [obj [], obj [], obj []]⟩ = some ⟨2, some [obj [], obj [], obj []]⟩ ∧
    stepBackward ⟨2, some [obj [], obj [], obj []]⟩ =
      some ⟨1, some [obj [], obj [], obj []]⟩ :=
  have h := step_round_trip [obj [], obj [], obj []] 1
    (by intro u hu; simp at hu; subst hu; rfl) ⟨by decide, by decide⟩
  ⟨h.2.2.1, h.2.2.2.1⟩

/-! ## The fetch handler -/

theorem fetchUsers_success (navigate : Navigate → Except String Unit) (st : HomeState)
    (body : List JSValue) (h : body ≠ []) :
    fetchUsers navigate st (.response true (.ok (arr body))) =
      { state :=
          { users := body
            loading := false
            error :=
              match navigate (.user ⟨0, some body⟩) with
              | .ok _ => st.error
              | .error _ =>
                some "Failed to load user data. Please check your internet connection." }
        navigation := some (.user ⟨0, some body⟩)
        console :=
          match navigate (.user ⟨0, some body⟩) with
          | .ok _ => [.log "User data fetched successfully!"]
          | .error e =>
            [.log "User data fetched successfully!", .error "Error fetching users:" e] } := by
  have hlen : ¬ ((body.length : Int) = 0) := by
    cases body with
    | nil => exact absurd rfl h
    | cons u rest => simp; omega
  cases hnav : navigate (.user ⟨0, some body⟩) <;>
    simp [fetchUsers, onResponse, onData, onError, hlen, hnav]

theorem fetchUsers_failure (navigate : Navigate → Except String Unit) (st : HomeState)
    (r : FetchResult)
    (h : ¬ ∃ body, r = .response true (.ok (arr body)) ∧ body ≠ []) :
    ∃ detail, fetchUsers navigate st r = onError st detail := by
  cases r with
  | rejected reason => exact ⟨reason, rfl⟩
  | response ok json =>
    cases ok with
    | false => exact ⟨"Failed to fetch user data.", rfl⟩
    | true =>
      cases json with
      | error e => exact ⟨e, rfl⟩
      | ok data =>
        cases data with
        | arr body =>
          cases body with
          | nil => exact ⟨"Invalid user data received.", rfl⟩
          | cons u rest => exact absurd ⟨u :: rest, rfl, by simp⟩ h
        | _ => exact ⟨"Invalid user data received.", rfl⟩

/-- C4, the claim as stated fails: the response is ok and its body is the one-element
array whose record has an object as `username`; the call of line 98 throws (the
`User` screen hands the object to a `Text` element), the `catch` runs, and the
handler ends with the error message set although it took the success path. -/
theorem fetch_success_counterexample :
    (fetchUsers (fun _ => .error "Objects are not valid as a React child")
        HomeState.initial
        (.response true (.ok (arr [obj [("username", obj [])]])))).navigation =
      some (.user ⟨0, some [obj [("username", obj [])]]⟩) ∧
    (fetchUsers (fun _ => .error "Objects are not valid as a React child")
        HomeState.initial
        (.response true (.ok (arr [obj [("username", obj [])]])))).state.error =
      some "Failed to load user data. Please check your internet connection." ∧
    ¬ ((fetchUsers (fun _ => .error "Objects are not valid as a React child")
        HomeState.initial
        (.response true (.ok (arr [obj [("username", obj [])]])))).state =
      { users := [obj [("username", obj [])]], loading := false, error := none }) := by
  refine ⟨rfl, rfl, ?_⟩
  intro h
  have herr := congrArg HomeState.error h
  cases herr

/-- C4, amended: the handler takes the success path (it reaches the call of line 98)
exactly when the response is ok and its decoded body is an array of length > 0; on
that path, and only there, it stores the body unchanged, stops loading and calls
`navigate("User", { currentUserIndex: 0, users: body })`; and it ends with no error
set exactly when, in addition, that call returns. -/
theorem fetch_success_path (navigate : Navigate → Except String Unit) (r : FetchResult) :
    ((fetchUsers navigate HomeState.initial r).navigation ≠ none ↔
      ∃ body, r = .response true (.ok (arr body)) ∧ 0 < body.length) ∧
    (∀ body : List JSValue,
      (r = .response true (.ok (arr body)) ∧ 0 < body.length) ↔
      ((fetchUsers navigate HomeState.initial r).state.users = body ∧
        (fetchUsers navigate HomeState.initial r).state.loading = false ∧
        (fetchUsers navigate HomeState.initial r).navigation =
          some (.user ⟨0, some body⟩))) ∧
    (∀ body : List JSValue,
      (r = .response true (.ok (arr body)) ∧ 0 < body.length ∧
        navigate (.user ⟨0, some body⟩) = .ok ()) ↔
      ((fetchUsers navigate HomeState.initial r).state =
          { users := body, loading := false, error := none } ∧
        (fetchUsers navigate HomeState.initial r).navigation =
          some (.user ⟨0, some body⟩))) := by
  by_cases h : ∃ body, r = .response true (.ok (arr body)) ∧ body ≠ []
  · obtain ⟨body, hr, hne⟩ := h
    subst hr
    have hpos : 0 < body.length := List.length_pos.mpr hne
    have hinj : ∀ body' : List JSValue,
        FetchResult.response true (.ok (arr body)) = .response true (.ok (arr body')) →
        body' = body := by
      intro body' heq
      injection heq with _ heq
      injection heq with heq
      injection heq with heq
      exact heq.symm
    rw [fetchUsers_success navigate _ body hne]
    refine ⟨⟨fun _ => ⟨body, rfl, hpos⟩, fun _ => by simp⟩, ?_, ?_⟩
    · intro body'
      constructor
      · rintro ⟨heq, _⟩
        rw [hinj body' heq]
        exact ⟨rfl, rfl, rfl⟩
      · rintro ⟨hu, _, _⟩
        dsimp only at hu
        subst hu
        exact ⟨rfl, hpos⟩
    · intro body'
      constructor
      · rintro ⟨heq, _, hnav⟩
        rw [hinj body' heq] at hnav ⊢
        rw [hnav]
        exact ⟨rfl, rfl⟩
      · rintro ⟨hst, _⟩
        have hu := congrArg HomeState.users hst
        dsimp only at hu
        subst hu
        refine ⟨rfl, hpos, ?_⟩
        have herr := congrArg HomeState.error hst
        dsimp only at herr
        cases hnav : navigate (.user ⟨0, some body⟩) with
        | ok u => rfl
        | error e =>
          rw [hnav] at herr
          cases herr
  · obtain ⟨detail, hd⟩ := fetchUsers_failure navigate HomeState.initial r h
    rw [hd]
    have hno : ∀ body : List JSValue,
        ¬ (r = .response true (.ok (arr body)) ∧ 0 < body.length) := by
      rintro body ⟨hr, hpos⟩
      exact h ⟨body, hr, List.length_pos.mp hpos⟩
    refine ⟨⟨fun hn => absurd rfl hn, ?_⟩, ?_, ?_⟩
    · rintro ⟨body, hr, hpos⟩
      exact absurd ⟨hr, hpos⟩ (hno body)
    · intro body
      constructor
      · intro hb
        exact absurd hb (hno body)
      · rintro ⟨_, _, hnav⟩
        simp [onError] at hnav
    · intro body
      constructor
      · rintro ⟨hr, hpos, _⟩
        exact absurd ⟨hr, hpos⟩ (hno body)
      · rintro ⟨_, hnav⟩
        simp [onError] at hnav

/-- C5: for every result that is not an ok response with a non-empty array body (a
non-ok status, a body that is not an array, an empty array, a rejected request or a
failed decode), the handler run from the initial state ends with the same state and
view: the fixed error message, loading stopped, the stored list still empty, no
navigation; only the detail of the logged error differs. -/
theorem fetch_failure_uniform (navigate : Navigate → Except String Unit) (r : FetchResult)
    (h : ¬ ∃ body, r = .response true (.ok (arr body)) ∧ 0 < body.length) :
    ∃ detail, fetchUsers navigate HomeState.initial r =
      { state :=
          { users := []
            loading := false
            error := some "Failed to load user data. Please check your internet connection." }
        navigation := none
        console := [.error "Error fetching users:" detail] } := by
  have h2 : ¬ ∃ body, r = .response true (.ok (arr body)) ∧ body ≠ [] := by
    rintro ⟨body, hr, hne⟩
    exact h ⟨body, hr, List.length_pos.mpr hne⟩
  obtain ⟨detail, hd⟩ := fetchUsers_failure navigate HomeState.initial r h2
  exact ⟨detail, hd⟩

/-- C5, for a response with a non-ok status, a body that is an object, and an empty
array. -/
theorem fetch_failure_uniform_witness :
    (∃ detail,
      fetchUsers (fun _ => .ok ()) HomeState.initial (.response false (.ok (arr [obj []]))) =
      { state :=
          { users := []
            loading := false
            error := some "Failed to load user data. Please check your internet connection." }
        navigation := none
        console := [.error "Error fetching users:" detail] }) ∧
    (fetchUsers (fun _ => .ok ()) HomeState.initial (.response true (.ok (obj [])))).console =
      [.error "Error fetching users:" "Invalid user data received."] ∧
    (fetchUsers (fun _ => .ok ()) HomeState.initial (.response true (.ok (arr [])))).console =
      [.error "Error fetching users:" "Invalid user data received."] :=
  ⟨fetch_failure_uniform (fun _ => .ok ()) (.response false (.ok (arr [obj []])))
      (by rintro ⟨body, hr, _⟩; cases hr),
    rfl, rfl⟩

/-! ## The record view and its guard -/

theorem JSValue.or_fallback (v : JSValue) :
    (v.truthy = false → v.or (str "N/A") = str "N/A") ∧
    (v.truthy = true → v.or (str "N/A") = v) := by
  constructor <;> intro h <;> simp [JSValue.or, h]

/-- C6: in the record view, each of the six rows `id`, `first_name`, `last_name`,
`username`, `email`, `password` shows the literal "N/A" when the field of the record
is falsy (as an absent field, `undefined`, `null`, the empty string, `0` and `false`
are) and the value of the field itself when it is truthy; one rule for all six. -/
theorem field_fallback (params : RouteParams) (d : Details)
    (h : UserScreen params = .viewing d) :
    ∃ users user, params.users = some users ∧
      user = index users params.currentUserIndex ∧
      (∀ row ∈ [(d.id, "id"), (d.first_name, "first_name"), (d.last_name, "last_name"),
          (d.username, "username"), (d.email, "email"), (d.password, "password")],
        ((user.getProp row.2).truthy = false → row.1 = str "N/A") ∧
        ((user.getProp row.2).truthy = true → row.1 = user.getProp row.2)) ∧
      (∀ v ∈ [undefined, null, str "", num 0, bool false], v.truthy = false) ∧
      (∀ fields key, lookup key fields = none → ((obj fields).getProp key).truthy = false) := by
  obtain ⟨users, hu, _, hd⟩ := UserScreen_viewing_inv params d h
  refine ⟨users, _, hu, rfl, ?_, ?_, ?_⟩
  · subst hd
    intro row hrow
    simp only [List.mem_cons, List.mem_singleton, List.not_mem_nil, or_false] at hrow
    rcases hrow with hrow | hrow | hrow | hrow | hrow | hrow <;> subst hrow <;>
      exact JSValue.or_fallback _
  · intro v hv
    simp only [List.mem_cons, List.mem_singleton, List.not_mem_nil, or_false] at hv
    rcases hv with hv | hv | hv | hv | hv <;> subst hv <;> rfl
  · intro fields key hk
    simp [JSValue.getProp, hk, JSValue.truthy]

/-- C6, on a record with a first name, an empty user name and an `id` of `0`: the
first name is shown as it is, the other rows show "N/A". -/
theorem field_fallback_witness :
    ∃ users user,
      (⟨0, some [obj [("id", num 0), ("first_name", str "Ada"), ("username", str "")]]⟩ :
        RouteParams).users = some users ∧
      user = index users 0 ∧
      (∀ row ∈ [(str "N/A", "id"), (str "Ada", "first_name"), (str "N/A", "last_name"),
          (str "N/A", "username"), (str "N/A", "email"), (str "N/A", "password")],
        ((user.getProp row.2).truthy = false → row.1 = str "N/A") ∧
        ((user.getProp row.2).truthy = true → row.1 = user.getProp row.2)) ∧
      (∀ v ∈ [undefined, null, str "", num 0, bool false], v.truthy = false) ∧
      (∀ fields key, lookup key fields = none → ((obj fields).getProp key).truthy = false) :=
  field_fallback
    ⟨0, some [obj [("id", num 0), ("first_name", str "Ada"), ("username", str "")]]⟩
    (detailsOf _ 0 (obj [("id", num 0), ("first_name", str "Ada"), ("username", str "")]))
    rfl

/-- C7, the claim as stated fails: for the one-element list `[null]` and index 0 the
list is defined and not empty and the index is within it, yet the guard returns the
"no data" view. -/
theorem noData_guard_counterexample :
    ¬ (UserScreen ⟨0, some [null]⟩ = noDataView ↔
        ((some [null] : Option (List JSValue)) = none ∨ ([null] : List JSValue) = [] ∨
          ¬ ((0 : Int) ≤ 0 ∧ (0 : Int) < (([null] : List JSValue).length : Int)))) := by
  intro h
  have hview : UserScreen ⟨0, some [null]⟩ = noDataView := rfl
  rcases h.mp hview with h1 | h1 | h1
  · cases h1
  · cases h1
  · exact h1 ⟨by decide, by decide⟩

/-- C7, amended: `UserScreen` returns the "no data" view (the message "Oops! No user
data available." with a "Go Back" button that navigates to `Home`) exactly when the
list is missing, the list is empty, the index is outside `0 ≤ index < length`, or the
entry at the index is falsy; in every other case it returns the record view, and the
entry `users[index]` is then truthy, so neither `undefined` nor `null`. -/
theorem noData_guard (params : RouteParams) :
    noDataView = .noData (.warn "User data is missing, showing error message.")
      "Oops! No user data available." ⟨"Go Back", false, .home⟩ ∧
    (UserScreen params = noDataView ↔
      (params.users = none ∨
        ∃ users, params.users = some users ∧
          (users = [] ∨ params.currentUserIndex < 0 ∨
            (users.length : Int) ≤ params.currentUserIndex ∨
            (index users params.currentUserIndex).truthy = false))) ∧
    (UserScreen params = noDataView ∨
      ∃ users d, params.users = some users ∧ UserScreen params = .viewing d ∧
        (index users params.currentUserIndex).truthy = true ∧
        index users params.currentUserIndex ≠ undefined ∧
        index users params.currentUserIndex ≠ null) := by
  obtain ⟨i, users⟩ := params
  refine ⟨rfl, ?_, ?_⟩
  · cases users with
    | none => exact ⟨fun _ => Or.inl rfl, fun _ => rfl⟩
    | some users =>
      cases ht : (index users i).truthy with
      | false =>
        exact ⟨fun _ => Or.inr ⟨users, rfl, Or.inr (Or.inr (Or.inr ht))⟩,
          fun _ => UserScreen_of_falsy users i ht⟩
      | true =>
        have hr := index_truthy_range users i ht
        rw [UserScreen_of_truthy users i ht]
        constructor
        · intro h
          exact absurd h.symm (noDataView_ne_viewing _)
        · rintro (h | ⟨users', hu, h⟩)
          · cases h
          · simp only [Option.some.injEq] at hu
            subst hu
            dsimp only at h
            rcases h with h | h | h | h
            · subst h
              simp at hr
              omega
            · omega
            · omega
            · rw [ht] at h
              cases h
  · cases users with
    | none => exact Or.inl rfl
    | some users =>
      cases ht : (index users i).truthy with
      | false => exact Or.inl (UserScreen_of_falsy users i ht)
      | true =>
        have hne := JSValue.truthy_ne_undefined _ ht
        exact Or.inr ⟨users, _, rfl, UserScreen_of_truthy users i ht, ht, hne.1, hne.2⟩

/-! ## The flow -/

theorem settle_success (body : List JSValue) (h : body ≠ []) :
    Session.mount.settle (.response true (.ok (arr body))) =
      { home := { users := body, loading := false, error := none }
        user := some ⟨0, some body⟩
        requests := [endpoint] } := by
  simp [Session.settle, Session.mount, fetchUsers_success _ _ body h, Session.navigate,
    HomeState.initial]

/-- C8: after a successful fetch of `N > 0` records the `User` route is opened at
index 0 on the decoded body; `UserScreen` returns the record view of the first record
of the body ("Displaying user 1 of N"), "Previous" is disabled, and "Next" is enabled
exactly when `N > 1`. -/
theorem initial_screen_after_fetch (body : List JSValue)
    (hN : 0 < body.length) (hrec : ∀ u ∈ body, u.isRecord = true) :
    (Session.mount.settle (.response true (.ok (arr body)))).user = some ⟨0, some body⟩ ∧
    ∃ first d, body.head? = some first ∧
      UserScreen ⟨0, some body⟩ = .viewing d ∧
      d = detailsOf body 0 first ∧
      d.console = .log ("Displaying user 1 of " ++ toString body.length) ∧
      d.previous.disabled = true ∧
      (d.next.disabled = false ↔ 1 < body.length) := by
  have hne : body ≠ [] := List.length_pos.mp hN
  refine ⟨by rw [settle_success body hne], ?_⟩
  cases body with
  | nil => exact absurd rfl hne
  | cons first rest =>
    have ht : (index (first :: rest) 0).truthy = true :=
      index_record (first :: rest) 0 hrec (le_refl 0) (by simp)
    refine ⟨first, _, rfl, UserScreen_of_truthy (first :: rest) 0 ht, rfl, rfl, rfl, ?_⟩
    simp [detailsOf]
    omega

/-- C8, for a body of eighty records: index 0, "Displaying user 1 of 80", "Previous"
disabled, "Next" enabled. -/
theorem initial_screen_after_fetch_witness :
    (Session.mount.settle (.response true (.ok (arr batch80)))).user =
      some ⟨0, some batch80⟩ ∧
    ∃ d, UserScreen ⟨0, some batch80⟩ = .viewing d ∧
      d.console = .log "Displaying user 1 of 80" ∧
      d.previous.disabled = true ∧ d.next.disabled = false :=
  have h := initial_screen_after_fetch batch80 (by decide)
    (by intro u hu; rw [List.eq_of_mem_replicate hu]; rfl)
  ⟨h.1, detailsOf batch80 0 (obj [("id", num 1)]), rfl, rfl, rfl, rfl⟩

/-- C2: after a successful fetch of a non-empty list of `N` records, every state of
the `User` route reached by presses on "Previous" and "Next" carries the fetched list
and an index with `0 ≤ index < N`, and `UserScreen` returns the record view there,
never the "no data" view; no step leaves the list, since "Previous" does nothing at
index 0 and "Next" does nothing at index `N - 1`. -/
theorem pagination_index_invariant (body : List JSValue) (p : RouteParams)
    (hN : body ≠ []) (hrec : ∀ u ∈ body, u.isRecord = true)
    (hreach : Reachable (.response true (.ok (arr body))) p) :
    (p.users = some body ∧ 0 ≤ p.currentUserIndex ∧
      p.currentUserIndex < (body.length : Int)) ∧
    UserScreen p ≠ noDataView ∧
    (∃ d, UserScreen p = .viewing d) ∧
    stepBackward ⟨0, some body⟩ = none ∧
    stepForward ⟨(body.length : Int) - 1, some body⟩ = none := by
  have hpos : 0 < body.length := List.length_pos.mpr hN
  have hinv : p.users = some body ∧ 0 ≤ p.currentUserIndex ∧
      p.currentUserIndex < (body.length : Int) := by
    induction hreach with
    | start p hp =>
      rw [settle_success body hN] at hp
      simp only [Option.some.injEq] at hp
      subst hp
      exact ⟨rfl, le_refl 0, by dsimp only; omega⟩
    | forward p q _ hstep ih =>
      obtain ⟨i, users⟩ := p
      obtain ⟨hu, h0, h1⟩ := ih
      dsimp only at hu h0 h1
      subst hu
      rw [stepForward_eq body i (index_record body i hrec h0 h1)] at hstep
      split at hstep
      · cases hstep
      · simp only [Option.some.injEq] at hstep
        subst hstep
        exact ⟨rfl, by dsimp only; omega, by dsimp only; omega⟩
    | backward p q _ hstep ih =>
      obtain ⟨i, users⟩ := p
      obtain ⟨hu, h0, h1⟩ := ih
      dsimp only at hu h0 h1
      subst hu
      rw [stepBackward_eq body i (index_record body i hrec h0 h1)] at hstep
      split at hstep
      · cases hstep
      · simp only [Option.some.injEq] at hstep
        subst hstep
        exact ⟨rfl, by dsimp only; omega, by dsimp only; omega⟩
  obtain ⟨i, users⟩ := p
  obtain ⟨hu, h0, h1⟩ := hinv
  dsimp only at hu h0 h1
  subst hu
  have ht := index_record body i hrec h0 h1
  refine ⟨⟨rfl, h0, h1⟩, ?_, ⟨_, UserScreen_of_truthy body i ht⟩, ?_, ?_⟩
  · rw [UserScreen_of_truthy body i ht]
    exact fun h => noDataView_ne_viewing _ h.symm
  · rw [stepBackward_eq body 0 (index_record body 0 hrec (by decide) (by omega))]
    simp
  · rw [stepForward_eq body _ (index_record body _ hrec (by omega) (by omega))]
    simp

/-- C2, on a fetched list of two records: the state after one press on "Next". -/
theorem pagination_index_invariant_witness :
    Reachable (.response true (.ok (arr [obj [], obj []]))) ⟨1, some [obj [], obj []]⟩ ∧
    UserScreen ⟨1, some [obj [], obj []]⟩ ≠ noDataView ∧
    stepForward ⟨1, some [obj [], obj []]⟩ = none :=
  have hreach : Reachable (.response true (.ok (arr [obj [], obj []])))
      ⟨1, some [obj [], obj []]⟩ :=
    .forward ⟨0, some [obj [], obj []]⟩ _ (.start _ rfl) rfl
  have h := pagination_index_invariant [obj [], obj []] ⟨1, some [obj [], obj []]⟩
    (by simp) (by intro u hu; simp at hu; subst hu; rfl) hreach
  ⟨hreach, h.2.1, h.2.2.2.2⟩

/-- C9, at the failure state left by a response with status 500: a press on "Retry"
calls `navigation.navigate("Home")` from the focused `Home` route and nothing else,
so the session is unchanged: loading stays off, the error stays set, and no second
request is issued. -/
theorem retry_keeps_failure_state :
    (HomeScreen (Session.mount.settle (.response false (.ok (obj [])))).home).errorPanel =
      some ("Failed to load user data. Please check your internet connection.",
        ⟨"Retry", false, .home⟩) ∧
    (Session.mount.settle (.response false (.ok (obj [])))).pressRetry =
      Session.mount.settle (.response false (.ok (obj []))) ∧
    (Session.mount.settle (.response false (.ok (obj [])))).pressRetry =
      { home :=
          { users := []
            loading := false
            error := some "Failed to load user data. Please check your internet connection." }
        user := none
        requests := [endpoint] } :=
  ⟨rfl, rfl, rfl⟩

/-- C10, the claim as stated fails: when the response is ok and its body is `[]`, the
`User` route is not opened, so `UserScreen` does not render its "no data" view. -/
theorem empty_batch_counterexample :
    ¬ ∃ p, (Session.mount.settle (.response true (.ok (arr [])))).user = some p ∧
      UserScreen p = noDataView := by
  rintro ⟨p, hp, _⟩
  cases hp

/-- C10, amended: when the response is ok and its body is `[]`, the handler takes the
error path ("Invalid user data received." is logged), no navigation is made, and the
flow ends on `HomeScreen` without the activity indicator, showing "Failed to load
user data. Please check your internet connection." and a "Retry" button. -/
theorem empty_batch_ends_on_home_error (navigate : Navigate → Except String Unit) :
    fetchUsers navigate HomeState.initial (.response true (.ok (arr []))) =
      onError HomeState.initial "Invalid user data received." ∧
    (Session.mount.settle (.response true (.ok (arr [])))).user = none ∧
    HomeScreen (Session.mount.settle (.response true (.ok (arr [])))).home =
      { activityIndicator := false
        errorPanel :=
          some ("Failed to load user data. Please check your internet connection.",
            ⟨"Retry", false, .home⟩) } :=
  ⟨rfl, rfl, rfl⟩

end App
